import Mathlib

/-!
Shallow embedding of the SCRO supply-chain risk scoring engine
(services/risk_assessment_service.py) together with proofs about the
properties stated in the specification.

Modelling conventions:
* Python floats are modelled as exact rationals.
* Python dicts used as records are modelled as structures; a dict that may
  lack a key in some code path uses an Option field (the field is none when
  the source returns a dict without that key).
* Python strings are modelled as String; the character-level processing of
  the lead-time classifier works on List Char (the .data of a String).
* Python round(x, 3) rounds to the nearest multiple of 1/1000, ties to even,
  which is the documented behaviour of round on exact values.
* The character classes of the classifier (digits, whitespace, lowercasing)
  are modelled over ASCII; the Unicode extensions of the Python classes do
  not arise in the data this engine consumes.
-/

/-! ## Text utilities for the lead-time classifier -/

/-- Python str.strip: remove leading and trailing whitespace. -/
def trimChars (t : List Char) : List Char :=
  ((t.dropWhile Char.isWhitespace).reverse.dropWhile Char.isWhitespace).reverse

/-- Python text.strip().lower(), as used at the start of parse_weeks and
risk_from_text. -/
def lowerTrim (t : List Char) : List Char :=
  (trimChars t).map Char.toLower

/-- Python substring test: needle in hay. -/
def hasSub (needle : List Char) : List Char → Bool
  | [] => needle.isEmpty
  | c :: tl => needle.isPrefixOf (c :: tl) || hasSub needle tl

/-- The special availability test of parse_weeks and risk_from_text:
"in stock australia" in t or "in-stock australia" in t. -/
def hasStockPhrase (t : List Char) : Bool :=
  hasSub ("in stock australia".data) t || hasSub ("in-stock australia".data) t

/-- Numeric value of a string of decimal digits. -/
def digitsVal (ds : List Char) : ℕ :=
  ds.foldl (fun a c => 10 * a + (c.toNat - 48)) 0

/-- Python float applied to the captured group of the weeks pattern: integer
digits ds, optional fractional digits es. -/
def fracVal (ds es : List Char) : ℚ :=
  (digitsVal ds : ℚ) + (digitsVal es : ℚ) / 10 ^ es.length

/-- After the captured number the weeks pattern allows whitespace and then
the literal "week" (final s optional, hence irrelevant). -/
def weekKeyword (cs : List Char) : Bool :=
  ['w', 'e', 'e', 'k'].isPrefixOf (cs.dropWhile Char.isWhitespace)

/-- Leftmost-match step of the Python regex (\d+\.?\d*)\s*weeks? at one
position: a maximal digit run, an optional dot with a further maximal digit
run, then whitespace and "week".  (Any backtracking into shorter digit runs
leaves the next character a digit, which can never start "week", so only the
maximal runs can complete a match; this mirrors the re.search backtracking.) -/
def matchWeeksAt (cs : List Char) : Option (List Char × List Char) :=
  let ds := cs.takeWhile Char.isDigit
  if ds = [] then none
  else
    match cs.dropWhile Char.isDigit with
    | '.' :: rest2 =>
        let es := rest2.takeWhile Char.isDigit
        if weekKeyword (rest2.dropWhile Char.isDigit) then some (ds, es) else none
    | rest => if weekKeyword rest then some (ds, []) else none

/-- re.search for the weeks pattern: try each start position left to right;
returns the captured digit parts of the leftmost match. -/
def searchWeeks : List Char → Option (List Char × List Char)
  | [] => none
  | c :: tl =>
    match matchWeeksAt (c :: tl) with
    | some p => some p
    | none => searchWeeks tl

/-- After the digits the days pattern allows whitespace and then "day". -/
def dayKeyword (cs : List Char) : Bool :=
  ['d', 'a', 'y'].isPrefixOf (cs.dropWhile Char.isWhitespace)

/-- Leftmost-match step of the Python regex (\d+)\s*days? at one position. -/
def matchDaysAt (cs : List Char) : Option (List Char) :=
  let ds := cs.takeWhile Char.isDigit
  if ds = [] then none
  else if dayKeyword (cs.dropWhile Char.isDigit) then some ds else none

/-- re.search for the days pattern. -/
def searchDays : List Char → Option (List Char)
  | [] => none
  | c :: tl =>
    match matchDaysAt (c :: tl) with
    | some p => some p
    | none => searchDays tl

/-- parse_weeks from risk_assessment_service.py: -1 encodes an unparsable
text, 0 is the special in-stock flag, otherwise the extracted week count
(a "N days" match is divided by 5). -/
def parse_weeks (text : List Char) : ℚ :=
  if text = [] then -1
  else
    let t := lowerTrim text
    if hasStockPhrase t then 0
    else
      match searchWeeks t with
      | some (ds, es) => fracVal ds es
      | none =>
        match searchDays t with
        | some ds => (digitsVal ds : ℚ) / 5
        | none => -1

/-- risk_from_text from risk_assessment_service.py: maps free delivery text
to a lead-time risk scalar. -/
def risk_from_text (text : List Char) : ℚ :=
  if text = [] then 0.5
  else
    let t := lowerTrim text
    if hasStockPhrase t then 0.0
    else
      let weeks := parse_weeks t
      if weeks = 0 then 0.0
      else if weeks < 0 then 0.5
      else if weeks ≤ 3 then 0.2
      else if weeks ≤ 6 then 0.6
      else if weeks > 10 then 0.9
      else min 0.85 (0.6 + (max weeks 6 - 6) * (0.25 / 4))

/-! ## Rounding

Python round(x, 3): nearest multiple of 1/1000, ties to the even multiple. -/

/-- Nearest integer, ties to even. -/
def roundHalfEven (q : ℚ) : ℤ :=
  if q - ⌊q⌋ < 1/2 then ⌊q⌋
  else if 1/2 < q - ⌊q⌋ then ⌊q⌋ + 1
  else if ⌊q⌋ % 2 = 0 then ⌊q⌋ else ⌊q⌋ + 1

/-- Python round(q, 3). -/
def pyRound3 (q : ℚ) : ℚ :=
  (roundHalfEven (q * 1000) : ℚ) / 1000

/-! ## Data model -/

/-- One supply-chain location as consumed by the engine.  Optional fields
model dict.get: a missing key is none. -/
structure Location where
  type? : Option String
  name? : Option String
  country? : Option String
deriving DecidableEq

/-- Python dict.get of the country key with default Unknown. -/
def locCountry (loc : Location) : String :=
  loc.country?.getD "Unknown"

/-- One product record; the three optional fields model the keys
raw.lead_time, raw.leadTime, raw.availability. -/
structure Product where
  name? : Option String
  lead_time? : Option String
  leadTime? : Option String
  availability? : Option String
deriving DecidableEq

/-- Python or-chain over dict.get results: the first value that is neither
missing nor the empty string, else the empty string. -/
def firstTruthy : List (Option String) → String
  | [] => ""
  | some s :: tl => if s = "" then firstTruthy tl else s
  | none :: tl => firstTruthy tl

/-- The or-chain over the keys lead_time, leadTime and availability with a final empty-string default. -/
def productLeadText (p : Product) : String :=
  firstTruthy [p.lead_time?, p.leadTime?, p.availability?]

/-- The climate risk table (country to scalar), as loaded at engine
initialization.  Duplicate keys of the Python dict literal are kept; their
values coincide, so first-match lookup agrees with the dict. -/
def climate_risk_data : List (String × ℚ) := [
  ("Australia", 0.3),
  ("China", 0.6),
  ("USA", 0.4),
  ("Germany", 0.2),
  ("Japan", 0.5),
  ("India", 0.7),
  ("Brazil", 0.6),
  ("Canada", 0.3),
  ("United Kingdom", 0.3),
  ("France", 0.2),
  ("Italy", 0.4),
  ("Spain", 0.5),
  ("Netherlands", 0.3),
  ("South Korea", 0.4),
  ("Taiwan", 0.5),
  ("Thailand", 0.6),
  ("Vietnam", 0.6),
  ("Indonesia", 0.7),
  ("Malaysia", 0.6),
  ("Philippines", 0.7),
  ("Mexico", 0.5),
  ("Turkey", 0.5),
  ("Poland", 0.3),
  ("Czech Republic", 0.3),
  ("Hungary", 0.4),
  ("Romania", 0.4),
  ("Bulgaria", 0.4),
  ("Croatia", 0.4),
  ("Slovakia", 0.3),
  ("Slovenia", 0.3),
  ("Estonia", 0.3),
  ("Latvia", 0.3),
  ("Lithuania", 0.3),
  ("Finland", 0.2),
  ("Sweden", 0.2),
  ("Norway", 0.2),
  ("Denmark", 0.3),
  ("Switzerland", 0.2),
  ("Austria", 0.2),
  ("Belgium", 0.3),
  ("Luxembourg", 0.3),
  ("Ireland", 0.3),
  ("Portugal", 0.4),
  ("Greece", 0.5),
  ("Cyprus", 0.5),
  ("Malta", 0.4),
  ("Iceland", 0.2),
  ("New Zealand", 0.3),
  ("South Africa", 0.6),
  ("Egypt", 0.7),
  ("Morocco", 0.6),
  ("Tunisia", 0.6),
  ("Algeria", 0.6),
  ("Libya", 0.7),
  ("Sudan", 0.8),
  ("Ethiopia", 0.7),
  ("Kenya", 0.6),
  ("Nigeria", 0.7),
  ("Ghana", 0.6),
  ("Senegal", 0.6),
  ("Ivory Coast", 0.6),
  ("Cameroon", 0.6),
  ("Angola", 0.6),
  ("Mozambique", 0.6),
  ("Tanzania", 0.6),
  ("Uganda", 0.6),
  ("Rwanda", 0.6),
  ("Burundi", 0.6),
  ("Madagascar", 0.6),
  ("Mauritius", 0.5),
  ("Seychelles", 0.5),
  ("Reunion", 0.5),
  ("Mayotte", 0.5),
  ("Comoros", 0.6),
  ("Djibouti", 0.7),
  ("Somalia", 0.8),
  ("Eritrea", 0.7),
  ("Chad", 0.7),
  ("Niger", 0.7),
  ("Mali", 0.7),
  ("Burkina Faso", 0.7),
  ("Guinea", 0.6),
  ("Sierra Leone", 0.6),
  ("Liberia", 0.6),
  ("Gambia", 0.6),
  ("Guinea-Bissau", 0.6),
  ("Cape Verde", 0.5),
  ("Sao Tome and Principe", 0.5),
  ("Equatorial Guinea", 0.6),
  ("Gabon", 0.6),
  ("Republic of the Congo", 0.6),
  ("Democratic Republic of the Congo", 0.7),
  ("Central African Republic", 0.7),
  ("Zambia", 0.6),
  ("Zimbabwe", 0.6),
  ("Botswana", 0.6),
  ("Namibia", 0.6),
  ("Lesotho", 0.6),
  ("Swaziland", 0.6),
  ("Malawi", 0.6),
  ("Zambia", 0.6),
  ("Zimbabwe", 0.6),
  ("Botswana", 0.6),
  ("Namibia", 0.6),
  ("Lesotho", 0.6),
  ("Swaziland", 0.6),
  ("Malawi", 0.6),
  ("Unknown", 0.5)
]

/-- The geopolitical risk table (country to scalar), as loaded at engine
initialization.  Duplicate keys of the Python dict literal are kept; their
values coincide, so first-match lookup agrees with the dict. -/
def geopolitical_risk_data : List (String × ℚ) := [
  ("Australia", 0.1),
  ("China", 0.4),
  ("USA", 0.2),
  ("Germany", 0.1),
  ("Japan", 0.2),
  ("India", 0.3),
  ("Brazil", 0.3),
  ("Canada", 0.1),
  ("United Kingdom", 0.2),
  ("France", 0.2),
  ("Italy", 0.2),
  ("Spain", 0.2),
  ("Netherlands", 0.1),
  ("South Korea", 0.3),
  ("Taiwan", 0.5),
  ("Thailand", 0.3),
  ("Vietnam", 0.3),
  ("Indonesia", 0.3),
  ("Malaysia", 0.3),
  ("Philippines", 0.4),
  ("Mexico", 0.4),
  ("Turkey", 0.5),
  ("Poland", 0.2),
  ("Czech Republic", 0.2),
  ("Hungary", 0.3),
  ("Romania", 0.3),
  ("Bulgaria", 0.3),
  ("Croatia", 0.2),
  ("Slovakia", 0.2),
  ("Slovenia", 0.2),
  ("Estonia", 0.3),
  ("Latvia", 0.3),
  ("Lithuania", 0.3),
  ("Finland", 0.2),
  ("Sweden", 0.1),
  ("Norway", 0.1),
  ("Denmark", 0.1),
  ("Switzerland", 0.1),
  ("Austria", 0.1),
  ("Belgium", 0.1),
  ("Luxembourg", 0.1),
  ("Ireland", 0.1),
  ("Portugal", 0.2),
  ("Greece", 0.3),
  ("Cyprus", 0.4),
  ("Malta", 0.2),
  ("Iceland", 0.1),
  ("New Zealand", 0.1),
  ("South Africa", 0.4),
  ("Egypt", 0.6),
  ("Morocco", 0.4),
  ("Tunisia", 0.4),
  ("Algeria", 0.5),
  ("Libya", 0.7),
  ("Sudan", 0.8),
  ("Ethiopia", 0.5),
  ("Kenya", 0.4),
  ("Nigeria", 0.5),
  ("Ghana", 0.3),
  ("Senegal", 0.3),
  ("Ivory Coast", 0.4),
  ("Cameroon", 0.4),
  ("Angola", 0.4),
  ("Mozambique", 0.4),
  ("Tanzania", 0.3),
  ("Uganda", 0.4),
  ("Rwanda", 0.3),
  ("Burundi", 0.5),
  ("Madagascar", 0.3),
  ("Mauritius", 0.2),
  ("Seychelles", 0.2),
  ("Reunion", 0.2),
  ("Mayotte", 0.2),
  ("Comoros", 0.3),
  ("Djibouti", 0.5),
  ("Somalia", 0.8),
  ("Eritrea", 0.6),
  ("Chad", 0.6),
  ("Niger", 0.6),
  ("Mali", 0.6),
  ("Burkina Faso", 0.6),
  ("Guinea", 0.4),
  ("Sierra Leone", 0.4),
  ("Liberia", 0.4),
  ("Gambia", 0.3),
  ("Guinea-Bissau", 0.4),
  ("Cape Verde", 0.2),
  ("Sao Tome and Principe", 0.2),
  ("Equatorial Guinea", 0.4),
  ("Gabon", 0.3),
  ("Republic of the Congo", 0.4),
  ("Democratic Republic of the Congo", 0.6),
  ("Central African Republic", 0.7),
  ("Zambia", 0.3),
  ("Zimbabwe", 0.5),
  ("Botswana", 0.2),
  ("Namibia", 0.3),
  ("Lesotho", 0.3),
  ("Swaziland", 0.3),
  ("Malawi", 0.3),
  ("Unknown", 0.5)
]

/-- self.climate_risk_data.get(country, 0.5). -/
def climateScore (country : String) : ℚ :=
  (climate_risk_data.lookup country).getD 0.5

/-- self.geopolitical_risk_data.get(country, 0.5). -/
def geopoliticalScore (country : String) : ℚ :=
  (geopolitical_risk_data.lookup country).getD 0.5

/-! ## Concentration index (calculate_hhi) -/

/-- One step of collections.Counter: country_counts[country] += 1 on an
association list (insertion order preserved, new keys appended). -/
def counterAdd : List (String × ℕ) → String → List (String × ℕ)
  | [], c => [(c, 1)]
  | (k, v) :: tl, c => if k = c then (k, v + 1) :: tl else (k, v) :: counterAdd tl c

/-- The country Counter built by the loop in calculate_hhi (also the
Counter used for the country distribution in assess_geographic_risk). -/
def countryCounts (cs : List String) : List (String × ℕ) :=
  cs.foldl counterAdd []

/-- The filtered_locations list of calculate_hhi.  Python tests the filter
with truthiness, so both None and the empty string leave the list
unfiltered. -/
def filteredLocs (locations : List Location) (location_type : Option String) :
    List Location :=
  match location_type with
  | none => locations
  | some t => if t = "" then locations else locations.filter (fun loc => loc.type? = some t)

/-- calculate_hhi from risk_assessment_service.py.  (The redundant second
emptiness test on total_locations in the source is subsumed by the test on
filtered_locations.) -/
def calculate_hhi (locations : List Location) (location_type : Option String) : ℚ :=
  if locations = [] then 0
  else
    let filtered := filteredLocs locations location_type
    if filtered = [] then 0
    else
      let total : ℚ := (filtered.length : ℚ)
      ((countryCounts (filtered.map locCountry)).map
        (fun kv => ((kv.2 : ℚ) / total) ^ 2)).sum

/-! ## Exposure assessors (climate, geopolitical) -/

/-- Entry of the high_risk_locations list built by the exposure loops. -/
structure HighRiskLocation where
  name : String
  country : String
  risk_level : ℚ
  type : String
deriving DecidableEq

/-- Result dict of the two exposure assessors; the
risk_level key is absent (none) in the empty-input early return. -/
structure ExposureResult where
  average_risk : ℚ
  high_risk_locations : List HighRiskLocation
  risk_level : Option String
deriving DecidableEq

/-- The record appended for a location whose score reaches 0.7. -/
def exposureEntry (score : String → ℚ) (loc : Location) : HighRiskLocation :=
  ⟨loc.name?.getD "Unknown", locCountry loc, score (locCountry loc), loc.type?.getD "unknown"⟩

/-- The climate assessor (source name with a leading underscore): accumulate total risk and flagged locations over
the location list, then average and classify. -/
def assess_climate_risk (locations : List Location) : ExposureResult :=
  if locations = [] then ⟨0, [], none⟩
  else
    let acc := locations.foldl
      (fun acc loc =>
        (acc.1 + climateScore (locCountry loc),
         if climateScore (locCountry loc) ≥ 0.7 then
           acc.2 ++ [exposureEntry climateScore loc]
         else acc.2))
      ((0 : ℚ), ([] : List HighRiskLocation))
    let average_risk := acc.1 / (locations.length : ℚ)
    ⟨pyRound3 average_risk, acc.2,
     some (if average_risk ≥ 0.6 then "high"
           else if average_risk ≥ 0.4 then "moderate" else "low")⟩

/-- The geopolitical assessor (source name with a leading underscore): same shape as the climate assessor with the
geopolitical table. -/
def assess_geopolitical_risk (locations : List Location) : ExposureResult :=
  if locations = [] then ⟨0, [], none⟩
  else
    let acc := locations.foldl
      (fun acc loc =>
        (acc.1 + geopoliticalScore (locCountry loc),
         if geopoliticalScore (locCountry loc) ≥ 0.7 then
           acc.2 ++ [exposureEntry geopoliticalScore loc]
         else acc.2))
      ((0 : ℚ), ([] : List HighRiskLocation))
    let average_risk := acc.1 / (locations.length : ℚ)
    ⟨pyRound3 average_risk, acc.2,
     some (if average_risk ≥ 0.6 then "high"
           else if average_risk ≥ 0.4 then "moderate" else "low")⟩

/-! ## Lead-time risk assessor -/

/-- Per-product entry of the lead-time result. -/
structure LeadTimeItem where
  product : String
  lead_time : String
  risk : ℚ
deriving DecidableEq

/-- Result dict of the lead-time assessor. -/
structure LeadTimeResult where
  average_risk : ℚ
  items : List LeadTimeItem
deriving DecidableEq

/-- The item appended for one product inside the lead-time loop. -/
def leadTimeEntry (p : Product) : LeadTimeItem :=
  ⟨p.name?.getD "Unknown", productLeadText p,
   pyRound3 (risk_from_text (productLeadText p).data)⟩

/-- The lead-time assessor (source name with a leading underscore): loop accumulating items, total and count, then
average (0 when the count is zero, mirroring the conditional expression of
the source; the early return already covers the empty list). -/
def assess_lead_time_risk (products : List Product) : LeadTimeResult :=
  if products = [] then ⟨0, []⟩
  else
    let acc := products.foldl
      (fun acc p =>
        (acc.1 ++ [leadTimeEntry p],
         acc.2.1 + risk_from_text (productLeadText p).data,
         acc.2.2 + 1))
      (([] : List LeadTimeItem), (0 : ℚ), (0 : ℕ))
    let avg := if acc.2.2 ≠ 0 then acc.2.1 / (acc.2.2 : ℚ) else 0
    ⟨pyRound3 avg, acc.1⟩

/-! ## Geographic risk (assess_geographic_risk) -/

/-- One segment pair of the hhi_by_segment dict.  The third field is the
overlap_ratio key of the source dict. -/
structure SegPairRisk where
  base_hhi : ℚ
  adjusted_hhi : ℚ
  overlap_value : ℚ
deriving DecidableEq

/-- The hhi_by_type dict. -/
structure HhiByType where
  manufacturing : ℚ
  materials : ℚ
  storage : ℚ
deriving DecidableEq

/-- The hhi_by_segment dict. -/
structure HhiBySegment where
  materials_to_manufacturing : SegPairRisk
  manufacturing_to_storage : SegPairRisk
deriving DecidableEq

/-- Entry of the high_risk_countries list. -/
structure HighRiskCountry where
  country : String
  climate_risk : ℚ
  geopolitical_risk : ℚ
deriving DecidableEq

/-- Result dict of assess_geographic_risk.  The empty-input early return
produces a dict without the hhi_by_type, hhi_by_segment and
high_risk_countries keys, hence the Option fields.  The free-text
risk_factors list carries no data any claim concerns and is not modelled. -/
structure GeographicRiskResult where
  total_locations : ℕ
  countries : ℕ
  hhi : ℚ
  concentration_risk : String
  country_distribution : List (String × ℕ)
  hhi_by_type : Option HhiByType
  hhi_by_segment : Option HhiBySegment
  high_risk_countries : Option (List HighRiskCountry)
deriving DecidableEq

/-- The per-segment country lists of assess_geographic_risk
(the country of every location of one type, defaulting to Unknown). -/
def segCountries (locations : List Location) (t : String) : List String :=
  (locations.filter (fun loc => loc.type? = some t)).map locCountry

/-- The inner overlap_ratio function: fraction of source countries that
appear in the set of truthy (non-empty) target countries; 0 for an empty
source list. -/
def overlapShare (source_countries target_countries : List String) : ℚ :=
  if source_countries = [] then 0
  else
    let target_set := target_countries.filter (fun c => c ≠ "")
    ((source_countries.countP (fun c => target_set.contains c)) : ℚ)
      / ((max source_countries.length 1 : ℕ) : ℚ)

/-- The co-location adjustment with reduction factor k = 0.5:
max(base * (1.0 - k * overlap), 0.0). -/
def adj_seg (base overlap : ℚ) : ℚ :=
  max (base * (1 - 0.5 * overlap)) 0

/-- assess_geographic_risk from risk_assessment_service.py. -/
def assess_geographic_risk (locations : List Location) : GeographicRiskResult :=
  if locations = [] then ⟨0, 0, 0, "low", [], none, none, none⟩
  else
    let overall_hhi := calculate_hhi locations none
    let manufacturing_hhi := calculate_hhi locations (some "manufacturing")
    let materials_hhi := calculate_hhi locations (some "raw_material")
    let storage_hhi := calculate_hhi locations (some "supplier")
    let material_countries := segCountries locations "raw_material"
    let manufacturing_countries := segCountries locations "manufacturing"
    let storage_countries := segCountries locations "supplier"
    let overlap_m2m := overlapShare material_countries manufacturing_countries
    let overlap_manu_to_store := overlapShare manufacturing_countries storage_countries
    let base_seg_m2m := (materials_hhi + manufacturing_hhi) / 2
    let base_seg_manu_to_store := (manufacturing_hhi + storage_hhi) / 2
    let adj_seg_m2m := adj_seg base_seg_m2m overlap_m2m
    let adj_seg_manu_to_store := adj_seg base_seg_manu_to_store overlap_manu_to_store
    let countryList := locations.map locCountry
    let countrySet := countryList.dedup
    let concentration_risk :=
      if overall_hhi ≥ 0.7 then "very_high"
      else if overall_hhi ≥ 0.5 then "high"
      else if overall_hhi ≥ 0.3 then "moderate"
      else "low"
    let high_risk_countries := countrySet.filterMap (fun country =>
      if climateScore country ≥ 0.7 ∨ geopoliticalScore country ≥ 0.7 then
        some ⟨country, climateScore country, geopoliticalScore country⟩
      else none)
    ⟨locations.length, countrySet.length, pyRound3 overall_hhi, concentration_risk,
     countryCounts countryList,
     some ⟨pyRound3 manufacturing_hhi, pyRound3 materials_hhi, pyRound3 storage_hhi⟩,
     some ⟨⟨pyRound3 base_seg_m2m, pyRound3 adj_seg_m2m, pyRound3 overlap_m2m⟩,
           ⟨pyRound3 base_seg_manu_to_store, pyRound3 adj_seg_manu_to_store,
            pyRound3 overlap_manu_to_store⟩⟩,
     some high_risk_countries⟩

/-! ## Composite scorer (assess_supply_chain_risk) -/

/-- The concentration_risk summary dict of the top-level result. -/
structure ConcentrationSummary where
  hhi : ℚ
  concentration_level : String
  countries : ℕ
  country_distribution : List (String × ℕ)
deriving DecidableEq

/-- Top-level result dict.  The empty-location early return produces empty
sub-dicts and no lead_time_risk key, modelled as none in every Option
field. -/
structure SupplyChainAssessment where
  overall_risk : String
  risk_score : ℚ
  geographic_risk : Option GeographicRiskResult
  climate_risk : Option ExposureResult
  geopolitical_risk : Option ExposureResult
  lead_time_risk : Option LeadTimeResult
  concentration_risk : Option ConcentrationSummary
  recommendations : List String
deriving DecidableEq

/-- The composite score (source name with a leading underscore): 70% of the (already
rounded) hhi field plus 30% of the (already rounded) lead-time average,
clamped to [0, 1]. -/
def calculate_overall_risk_score_with_lead_time
    (geographic_risk : GeographicRiskResult) (lead_time_risk : LeadTimeResult) : ℚ :=
  min (max (0.7 * geographic_risk.hhi + 0.3 * lead_time_risk.average_risk) 0) 1

/-- The recommendation builder (source name with a leading underscore).  The countries joined into the two named
lists are deduplicated (Python builds a set); its iteration order is
unspecified in Python and modelled as first occurrence. -/
def generate_recommendations (geographic_risk : GeographicRiskResult)
    (climate_risk geopolitical_risk : ExposureResult) : List String :=
  let hhi := geographic_risk.hhi
  let r1 : List String :=
    if hhi ≥ 0.7 then
      ["Consider diversifying suppliers across more countries to reduce geographic concentration risk"]
    else if hhi ≥ 0.5 then
      ["Monitor geographic concentration and consider adding suppliers in different regions"]
    else []
  let r2 : List String :=
    if climate_risk.risk_level = some "high" then
      let cs := (climate_risk.high_risk_locations.map (fun loc => loc.country)).dedup
      ["Implement climate risk mitigation strategies for high-risk locations"] ++
        (if cs = [] then []
         else ["Consider alternative suppliers outside high climate risk countries: " ++
               String.intercalate ", " cs])
    else []
  let r3 : List String :=
    if geopolitical_risk.risk_level = some "high" then
      let cs := (geopolitical_risk.high_risk_locations.map (fun loc => loc.country)).dedup
      ["Develop contingency plans for geopolitical disruptions in high-risk regions"] ++
        (if cs = [] then []
         else ["Monitor political stability in: " ++ String.intercalate ", " cs])
    else []
  let recs := r1 ++ r2 ++ r3
  if recs = [] then
    ["Supply chain risk levels are acceptable. Continue monitoring for changes."]
  else recs

/-- assess_supply_chain_risk from risk_assessment_service.py.  The Python
signature defaults products to None and passes products or [] to the
lead-time assessor; callers of this embedding pass the list directly. -/
def assess_supply_chain_risk (locations : List Location) (products : List Product) :
    SupplyChainAssessment :=
  if locations = [] then
    ⟨"unknown", 0, none, none, none, none, none,
     ["No locations available for risk assessment"]⟩
  else
    let geographic_risk := assess_geographic_risk locations
    let climate_risk := assess_climate_risk locations
    let geopolitical_risk := assess_geopolitical_risk locations
    let lead_time_risk := assess_lead_time_risk products
    let risk_score := calculate_overall_risk_score_with_lead_time geographic_risk lead_time_risk
    let overall_risk :=
      if risk_score ≥ 0.8 then "very_high"
      else if risk_score ≥ 0.6 then "high"
      else if risk_score ≥ 0.4 then "moderate"
      else if risk_score ≥ 0.2 then "low"
      else "very_low"
    ⟨overall_risk, pyRound3 risk_score, some geographic_risk, some climate_risk,
     some geopolitical_risk, some lead_time_risk,
     some ⟨geographic_risk.hhi, geographic_risk.concentration_risk,
           geographic_risk.countries, geographic_risk.country_distribution⟩,
     generate_recommendations geographic_risk climate_risk geopolitical_risk⟩

/-! ## Spec-side formulas and concrete inputs used by the claims -/

/-- Modelled from the claim wording for the concentration index: the sum
over the distinct countries of the squared share count_in_country divided
by total locations. -/
def hhiFormulaSpec (cs : List String) : ℚ :=
  ((cs.dedup).map (fun c => ((cs.count c : ℚ) / (cs.length : ℚ)) ^ 2)).sum

/-- Modelled from the claim wording for the overlap measure: the fraction
of source locations whose country appears anywhere in the target country
list, 0 when the source is empty.  (Unlike the code it does not discard
empty-string countries from the target.) -/
def overlapShareSpec (source_countries target_countries : List String) : ℚ :=
  if source_countries = [] then 0
  else ((source_countries.countP (fun c => target_countries.contains c)) : ℚ)
        / (source_countries.length : ℚ)

/-- The amended overlap wording: the fraction of source locations whose
country is a non-empty string appearing in the target country list. -/
def overlapShareAmended (source_countries target_countries : List String) : ℚ :=
  if source_countries = [] then 0
  else ((source_countries.countP
          (fun c => decide (c ∈ target_countries ∧ c ≠ ""))) : ℚ)
        / (source_countries.length : ℚ)

/-- Two locations in two distinct countries, no segment types. -/
def twoCountryLocs : List Location :=
  [⟨none, some "Plant A", some "Australia"⟩, ⟨none, some "Plant B", some "China"⟩]

/-- Three locations: China twice, Australia once. -/
def chinaHeavyLocs : List Location :=
  [⟨none, some "Plant A", some "China"⟩, ⟨none, some "Plant B", some "China"⟩,
   ⟨none, some "Plant C", some "Australia"⟩]

/-- Three locations in India, China and the USA (climate scores 0.7, 0.6
and 0.4, so the mean 17/30 does not have three decimal places). -/
def mixedClimateLocs : List Location :=
  [⟨none, some "Plant A", some "India"⟩, ⟨none, some "Plant B", some "China"⟩,
   ⟨none, some "Plant C", some "USA"⟩]

/-- A raw-material and a manufacturing location that both carry the empty
string as country. -/
def emptyCountryLocs : List Location :=
  [⟨some "raw_material", some "Mine", some ""⟩,
   ⟨some "manufacturing", some "Plant", some ""⟩]

/-- One product whose lead_time field reads "2 weeks". -/
def twoWeekProducts : List Product :=
  [⟨some "Widget", some "2 weeks", none, none⟩]

/-! ## Helper lemmas: the Counter of calculate_hhi versus counts over dedup -/

theorem counterAdd_keys (m : List (String × ℕ)) (c : String) :
    (counterAdd m c).map Prod.fst =
      if c ∈ m.map Prod.fst then m.map Prod.fst else m.map Prod.fst ++ [c] := by
  induction m with
  | nil => simp [counterAdd]
  | cons kv tl ih =>
    obtain ⟨k, v⟩ := kv
    by_cases hk : k = c
    · subst hk; simp [counterAdd]
    · by_cases hc : c ∈ tl.map Prod.fst
      · simp [counterAdd, hk, ih, hc, Ne.symm hk]
      · simp [counterAdd, hk, ih, hc, Ne.symm hk]

theorem counterAdd_lookup_self (m : List (String × ℕ)) (c : String) :
    (counterAdd m c).lookup c = some ((m.lookup c).getD 0 + 1) := by
  induction m with
  | nil => simp [counterAdd]
  | cons kv tl ih =>
    obtain ⟨k, v⟩ := kv
    by_cases hk : k = c
    · subst hk; simp [counterAdd, List.lookup]
    · simp [counterAdd, hk, List.lookup, beq_false_of_ne (Ne.symm hk), ih]

theorem counterAdd_lookup_ne (m : List (String × ℕ)) (c k : String) (h : k ≠ c) :
    (counterAdd m c).lookup k = m.lookup k := by
  induction m with
  | nil => simp [counterAdd, List.lookup, beq_false_of_ne h]
  | cons kv tl ih =>
    obtain ⟨k', v⟩ := kv
    by_cases hk : k' = c
    · subst hk; simp [counterAdd, List.lookup, beq_false_of_ne h]
    · simp [counterAdd, hk, List.lookup, ih]

theorem foldl_counterAdd_lookup (cs : List String) :
    ∀ (m : List (String × ℕ)) (k : String),
      ((cs.foldl counterAdd m).lookup k).getD 0 = (m.lookup k).getD 0 + cs.count k := by
  induction cs with
  | nil => intro m k; simp
  | cons c tl ih =>
    intro m k
    rw [List.foldl_cons, ih]
    by_cases hk : k = c
    · subst hk
      rw [counterAdd_lookup_self]
      simp [List.count_cons]
      omega
    · rw [counterAdd_lookup_ne _ _ _ hk]
      simp [List.count_cons, hk]

theorem foldl_counterAdd_keys_mem (cs : List String) :
    ∀ (m : List (String × ℕ)) (k : String),
      (k ∈ (cs.foldl counterAdd m).map Prod.fst ↔ k ∈ m.map Prod.fst ∨ k ∈ cs) := by
  induction cs with
  | nil => intro m k; simp
  | cons c tl ih =>
    intro m k
    rw [List.foldl_cons, ih, counterAdd_keys]
    by_cases hc : c ∈ m.map Prod.fst
    · rw [if_pos hc]
      constructor
      · rintro (h | h) <;> simp [h]
      · rintro (h | h)
        · exact Or.inl h
        · rcases List.mem_cons.mp h with h | h
          · subst h; exact Or.inl hc
          · exact Or.inr h
    · rw [if_neg hc]
      simp only [List.mem_append, List.mem_cons, List.mem_singleton]
      tauto

theorem foldl_counterAdd_nodup (cs : List String) :
    ∀ (m : List (String × ℕ)), (m.map Prod.fst).Nodup →
      ((cs.foldl counterAdd m).map Prod.fst).Nodup := by
  induction cs with
  | nil => intro m h; simpa
  | cons c tl ih =>
    intro m h
    rw [List.foldl_cons]
    apply ih
    rw [counterAdd_keys]
    by_cases hc : c ∈ m.map Prod.fst
    · simpa [hc]
    · simpa [hc, List.nodup_append] using h

theorem lookup_eq_of_mem (m : List (String × ℕ)) (hm : (m.map Prod.fst).Nodup) :
    ∀ kv ∈ m, m.lookup kv.1 = some kv.2 := by
  induction m with
  | nil => simp
  | cons hd tl ih =>
    obtain ⟨k, v⟩ := hd
    intro kv hkv
    rcases List.mem_cons.mp hkv with h | h
    · subst h; simp [List.lookup]
    · have hk : kv.1 ≠ k := by
        intro he
        have hmem : kv.1 ∈ tl.map Prod.fst := List.mem_map_of_mem Prod.fst h
        exact (List.nodup_cons.mp hm).1 (he ▸ hmem)
      have htl := ih (List.nodup_cons.mp hm).2 kv h
      simp [List.lookup, beq_false_of_ne hk, htl]

theorem countryCounts_keys_nodup (cs : List String) :
    ((countryCounts cs).map Prod.fst).Nodup :=
  foldl_counterAdd_nodup cs [] (by simp)

theorem countryCounts_keys_mem (cs : List String) (k : String) :
    k ∈ (countryCounts cs).map Prod.fst ↔ k ∈ cs := by
  simpa [countryCounts] using foldl_counterAdd_keys_mem cs [] k

theorem countryCounts_val (cs : List String) :
    ∀ kv ∈ countryCounts cs, kv.2 = cs.count kv.1 := by
  intro kv hkv
  have h1 := lookup_eq_of_mem _ (countryCounts_keys_nodup cs) kv hkv
  have h2 := foldl_counterAdd_lookup cs [] kv.1
  rw [show (cs.foldl counterAdd [] : List (String × ℕ)) = countryCounts cs from rfl, h1] at h2
  simpa using h2

theorem countryCounts_map_sum (cs : List String) (f : String → ℕ → ℚ) :
    ((countryCounts cs).map (fun kv => f kv.1 kv.2)).sum
      = ((cs.dedup).map (fun c => f c (cs.count c))).sum := by
  have h1 : (countryCounts cs).map (fun kv => f kv.1 kv.2)
      = ((countryCounts cs).map Prod.fst).map (fun k => f k (cs.count k)) := by
    rw [List.map_map]
    refine List.map_congr_left (fun kv hkv => ?_)
    simp only [Function.comp]
    rw [countryCounts_val cs kv hkv]
  have h2 : ((countryCounts cs).map Prod.fst).Perm cs.dedup := by
    rw [List.perm_ext_iff_of_nodup (countryCounts_keys_nodup cs) (List.nodup_dedup cs)]
    intro a
    rw [countryCounts_keys_mem, List.mem_dedup]
  rw [h1]
  exact (h2.map _).sum_eq

/-! ## Helper lemmas: list sums of squares -/

theorem sum_map_div_const {α : Type} (l : List α) (f : α → ℚ) (d : ℚ) :
    (l.map (fun x => f x / d)).sum = (l.map f).sum / d := by
  induction l with
  | nil => simp
  | cons a tl ih => simp [ih, add_div]

theorem sum_sq_le_sq_sum (l : List ℚ) (h : ∀ x ∈ l, 0 ≤ x) :
    (l.map (fun x => x ^ 2)).sum ≤ l.sum ^ 2 := by
  induction l with
  | nil => simp
  | cons a tl ih =>
    simp only [List.map_cons, List.sum_cons]
    have ha : 0 ≤ a := h a (by simp)
    have htl : ∀ x ∈ tl, 0 ≤ x := fun x hx => h x (by simp [hx])
    have hs : 0 ≤ tl.sum := List.sum_nonneg htl
    nlinarith [ih htl]

theorem nat_sum_sq_le (l : List ℕ) : (l.map (fun x => x ^ 2)).sum ≤ l.sum ^ 2 := by
  induction l with
  | nil => simp
  | cons a tl ih =>
    simp only [List.map_cons, List.sum_cons]
    have hexp : (a + tl.sum) ^ 2 = a ^ 2 + 2 * (a * tl.sum) + tl.sum ^ 2 := by ring
    rw [hexp]
    linarith [ih, Nat.zero_le (2 * (a * tl.sum))]

theorem nat_sum_sq_eq_iff (l : List ℕ) (h : ∀ x ∈ l, 1 ≤ x) :
    ((l.map (fun x => x ^ 2)).sum = l.sum ^ 2 ↔ l.length ≤ 1) := by
  match l with
  | [] => simp
  | [a] => simp
  | a :: b :: tl =>
    simp only [List.map_cons, List.sum_cons, List.length_cons]
    constructor
    · intro he
      exfalso
      have ha : 1 ≤ a := h a (by simp)
      have hb : 1 ≤ b := h b (by simp)
      have hs : (tl.map (fun x => x ^ 2)).sum ≤ tl.sum ^ 2 := nat_sum_sq_le tl
      have hexp : (a + (b + tl.sum)) ^ 2
          = a ^ 2 + b ^ 2 + tl.sum ^ 2 + 2 * (a * b) + 2 * (a * tl.sum)
            + 2 * (b * tl.sum) := by ring
      rw [hexp] at he
      have hab : 1 ≤ a * b := le_trans (by norm_num) (Nat.mul_le_mul ha hb)
      linarith [hs, he, hab, Nat.zero_le (a * tl.sum), Nat.zero_le (b * tl.sum)]
    · intro hl
      exfalso
      omega

/-! ## Helper lemmas: the concentration-index formula -/

theorem filteredLocs_nil (location_type : Option String) :
    filteredLocs [] location_type = [] := by
  cases location_type with
  | none => rfl
  | some t => simp [filteredLocs]

theorem calculate_hhi_eq (locations : List Location) (location_type : Option String)
    (h : filteredLocs locations location_type ≠ []) :
    calculate_hhi locations location_type
      = hhiFormulaSpec ((filteredLocs locations location_type).map locCountry) := by
  have hloc : locations ≠ [] := by
    intro he
    subst he
    exact h (filteredLocs_nil location_type)
  rw [calculate_hhi, if_neg hloc, if_neg h, hhiFormulaSpec]
  rw [countryCounts_map_sum ((filteredLocs locations location_type).map locCountry)
    (fun c n => ((n : ℚ) / ((filteredLocs locations location_type).length : ℚ)) ^ 2)]
  simp [List.length_map]

theorem calculate_hhi_empty (locations : List Location) (location_type : Option String)
    (h : filteredLocs locations location_type = []) :
    calculate_hhi locations location_type = 0 := by
  rcases eq_or_ne locations [] with rfl | hloc
  · rw [calculate_hhi, if_pos rfl]
  · rw [calculate_hhi, if_neg hloc, if_pos h]

theorem hhiFormulaSpec_eq_div (cs : List String) :
    hhiFormulaSpec cs
      = ((cs.dedup).map (fun c => ((cs.count c : ℚ)) ^ 2)).sum / (cs.length : ℚ) ^ 2 := by
  rw [hhiFormulaSpec]
  rw [List.map_congr_left (fun c _ =>
    div_pow (cs.count c : ℚ) ((cs.length : ℚ)) 2)]
  exact sum_map_div_const cs.dedup (fun c => ((cs.count c : ℚ)) ^ 2) ((cs.length : ℚ) ^ 2)

theorem sum_counts_cast (cs : List String) :
    ((cs.dedup).map (fun c => (cs.count c : ℚ))).sum = (cs.length : ℚ) := by
  have h := List.sum_map_count_dedup_eq_length cs
  calc ((cs.dedup).map (fun c => (cs.count c : ℚ))).sum
      = (((cs.dedup).map (fun c => cs.count c)).map (fun n : ℕ => (n : ℚ))).sum := by
        rw [List.map_map]; rfl
    _ = ((((cs.dedup).map (fun c => cs.count c)).sum : ℕ) : ℚ) :=
        (Nat.cast_list_sum _).symm
    _ = (cs.length : ℚ) := by rw [h]

theorem hhiFormulaSpec_nonneg (cs : List String) : 0 ≤ hhiFormulaSpec cs := by
  apply List.sum_nonneg
  intro x hx
  simp only [List.mem_map] at hx
  obtain ⟨c, _, rfl⟩ := hx
  positivity

theorem hhiFormulaSpec_le_one (cs : List String) : hhiFormulaSpec cs ≤ 1 := by
  rcases eq_or_ne cs [] with rfl | h
  · simp [hhiFormulaSpec]
  · have hL : (0 : ℚ) < (cs.length : ℚ) := by
      exact_mod_cast List.length_pos.mpr h
    rw [hhiFormulaSpec_eq_div, div_le_one (by positivity)]
    have hb := sum_sq_le_sq_sum ((cs.dedup).map (fun c => (cs.count c : ℚ)))
      (by
        intro x hx
        simp only [List.mem_map] at hx
        obtain ⟨c, _, rfl⟩ := hx
        positivity)
    rw [List.map_map, sum_counts_cast] at hb
    calc ((cs.dedup).map (fun c => ((cs.count c : ℚ)) ^ 2)).sum
        = ((cs.dedup).map ((fun x : ℚ => x ^ 2) ∘ fun c => (cs.count c : ℚ))).sum := rfl
      _ ≤ (cs.length : ℚ) ^ 2 := hb

theorem dedup_length_le_one_iff (cs : List String) (h : cs ≠ []) :
    cs.dedup.length ≤ 1 ↔ ∃ c, ∀ x ∈ cs, x = c := by
  constructor
  · intro hl
    have hne : cs.dedup ≠ [] := fun he => h ((List.dedup_eq_nil cs).mp he)
    obtain ⟨c, hc⟩ := List.length_eq_one.mp
      (le_antisymm hl (List.length_pos.mpr hne))
    refine ⟨c, fun x hx => ?_⟩
    have hmem : x ∈ cs.dedup := List.mem_dedup.mpr hx
    rw [hc] at hmem
    simpa using hmem
  · rintro ⟨c, hc⟩
    have hall : ∀ x ∈ cs.dedup, x = c := fun x hx => hc x (List.mem_dedup.mp hx)
    have hnd := List.nodup_dedup cs
    rcases hd : cs.dedup with _ | ⟨a, tl⟩
    · simp
    · rcases tl with _ | ⟨b, tl2⟩
      · simp
      · exfalso
        rw [hd] at hall hnd
        have ha : a = c := hall a (by simp)
        have hb : b = c := hall b (by simp)
        have : a ≠ b := by
          have := List.nodup_cons.mp hnd
          intro he
          exact this.1 (he ▸ List.mem_cons_self b tl2)
        exact this (ha.trans hb.symm)

theorem hhiFormulaSpec_eq_one_iff (cs : List String) (h : cs ≠ []) :
    hhiFormulaSpec cs = 1 ↔ ∃ c, ∀ x ∈ cs, x = c := by
  have hL : (0 : ℚ) < (cs.length : ℚ) := by
    exact_mod_cast List.length_pos.mpr h
  rw [hhiFormulaSpec_eq_div, div_eq_one_iff_eq (by positivity)]
  have hcast : ((cs.dedup).map (fun c => ((cs.count c : ℚ)) ^ 2)).sum
      = ((((cs.dedup).map (fun c => (cs.count c) ^ 2)).sum : ℕ) : ℚ) := by
    rw [Nat.cast_list_sum, List.map_map]
    refine congrArg List.sum (List.map_congr_left fun c _ => ?_)
    simp [Function.comp]
  have hcast2 : ((cs.length : ℚ)) ^ 2 = (((cs.length ^ 2 : ℕ)) : ℚ) := by push_cast; ring
  rw [hcast, hcast2, Nat.cast_inj]
  have hone : ∀ x ∈ (cs.dedup).map (fun c => cs.count c), 1 ≤ x := by
    intro x hx
    simp only [List.mem_map] at hx
    obtain ⟨c, hc, rfl⟩ := hx
    exact List.count_pos_iff.mpr (List.mem_dedup.mp hc)
  have hnat := nat_sum_sq_eq_iff ((cs.dedup).map (fun c => cs.count c)) hone
  rw [List.sum_map_count_dedup_eq_length, List.length_map] at hnat
  have hshape : ((cs.dedup).map (fun c => cs.count c ^ 2)).sum
      = ((cs.dedup).map ((fun x : ℕ => x ^ 2) ∘ fun c => cs.count c)).sum := rfl
  rw [hshape, ← List.map_map]
  rw [hnat]
  exact dedup_length_le_one_iff cs h

theorem hhiFormulaSpec_even (cs : List String) (m : ℕ) (h : cs ≠ [])
    (he : ∀ c ∈ cs.dedup, cs.count c = m) :
    hhiFormulaSpec cs = 1 / (cs.dedup.length : ℚ) := by
  have hne : cs.dedup ≠ [] := fun hnil => h ((List.dedup_eq_nil cs).mp hnil)
  have hn : 0 < cs.dedup.length := List.length_pos.mpr hne
  have hm : 0 < m := by
    rcases hd : cs.dedup with _ | ⟨a, tl⟩
    · exact absurd hd hne
    · have hmem : a ∈ cs.dedup := by rw [hd]; simp
      have hcm := he a hmem
      have hpos : 0 < cs.count a := List.count_pos_iff.mpr (List.mem_dedup.mp hmem)
      omega
  have hL : cs.length = cs.dedup.length * m := by
    have hsum := List.sum_map_count_dedup_eq_length cs
    rw [List.map_congr_left he] at hsum
    rw [← hsum]
    simp [List.map_const', List.sum_replicate, Nat.smul_one_eq_cast]
  rw [hhiFormulaSpec_eq_div]
  rw [List.map_congr_left (fun c hc => by rw [he c hc] :
    ∀ c ∈ cs.dedup, ((cs.count c : ℚ)) ^ 2 = ((m : ℚ)) ^ 2)]
  rw [List.map_const', List.sum_replicate, hL]
  have hnq : ((cs.dedup.length : ℚ)) ≠ 0 := by exact_mod_cast hn.ne'
  have hmq : ((m : ℚ)) ≠ 0 := by exact_mod_cast hm.ne'
  push_cast
  field_simp
  ring

/-! ## Helper lemmas: the accumulation loops of the assessors -/

theorem exposure_foldl (score : String → ℚ) (locations : List Location) :
    ∀ (a : ℚ) (l : List HighRiskLocation),
      locations.foldl
        (fun acc loc =>
          (acc.1 + score (locCountry loc),
           if score (locCountry loc) ≥ 0.7 then acc.2 ++ [exposureEntry score loc]
           else acc.2))
        (a, l)
      = (a + (locations.map (fun loc => score (locCountry loc))).sum,
         l ++ (locations.filter (fun loc => score (locCountry loc) ≥ 0.7)).map
               (exposureEntry score)) := by
  induction locations with
  | nil => intro a l; simp
  | cons loc tl ih =>
    intro a l
    rw [List.foldl_cons, ih]
    by_cases hc : score (locCountry loc) ≥ 0.7
    · simp [hc, add_assoc]
    · simp [hc, add_assoc]

theorem leadtime_foldl (products : List Product) :
    ∀ (itms : List LeadTimeItem) (tot : ℚ) (cnt : ℕ),
      products.foldl
        (fun acc p =>
          (acc.1 ++ [leadTimeEntry p],
           acc.2.1 + risk_from_text (productLeadText p).data,
           acc.2.2 + 1))
        (itms, tot, cnt)
      = (itms ++ products.map leadTimeEntry,
         tot + (products.map (fun p => risk_from_text (productLeadText p).data)).sum,
         cnt + products.length) := by
  induction products with
  | nil => intro itms tot cnt; simp
  | cons p tl ih =>
    intro itms tot cnt
    rw [List.foldl_cons, ih]
    simp [add_assoc]
    omega

/-! ## Helper lemmas: the overlap measure -/

theorem overlapShare_eq_amended (source target : List String) :
    overlapShare source target = overlapShareAmended source target := by
  rcases eq_or_ne source [] with rfl | h
  · simp [overlapShare, overlapShareAmended]
  · rw [overlapShare, overlapShareAmended, if_neg h, if_neg h]
    have hone : 1 ≤ source.length :=
      Nat.one_le_iff_ne_zero.mpr (fun hz => h (List.eq_nil_of_length_eq_zero hz))
    have hmax : max source.length 1 = source.length := Nat.max_eq_left hone
    rw [hmax]
    have hcount : source.countP (fun c => (target.filter (fun c2 => c2 ≠ "")).contains c)
        = source.countP (fun c => decide (c ∈ target ∧ c ≠ "")) := by
      apply List.countP_congr
      intro c _
      simp [List.mem_filter]
    simp only [hcount]

/-! ## Helper lemmas: concrete evaluations of the lead-time classifier -/

theorem risk_eval_empty : risk_from_text ("".data) = 0.5 := by
  norm_num [risk_from_text, show ("".data : List Char) = [] from rfl]

theorem risk_eval_two_weeks : risk_from_text ("2 weeks".data) = 0.2 := by
  have hfv : fracVal ['2'] [] = 2 := by
    norm_num [fracVal, show digitsVal ['2'] = 2 from by decide,
      show digitsVal ([] : List Char) = 0 from by decide]
  norm_num [risk_from_text, parse_weeks,
    show lowerTrim ("2 weeks".data) = "2 weeks".data from by decide,
    show hasStockPhrase ("2 weeks".data) = false from by decide,
    show searchWeeks ("2 weeks".data) = some (['2'], []) from by decide,
    eq_false (show ("2 weeks".data : List Char) ≠ [] from by decide), hfv]

theorem risk_eval_three_weeks : risk_from_text ("3 weeks".data) = 0.2 := by
  have hfv : fracVal ['3'] [] = 3 := by
    norm_num [fracVal, show digitsVal ['3'] = 3 from by decide,
      show digitsVal ([] : List Char) = 0 from by decide]
  norm_num [risk_from_text, parse_weeks,
    show lowerTrim ("3 weeks".data) = "3 weeks".data from by decide,
    show hasStockPhrase ("3 weeks".data) = false from by decide,
    show searchWeeks ("3 weeks".data) = some (['3'], []) from by decide,
    eq_false (show ("3 weeks".data : List Char) ≠ [] from by decide), hfv]

theorem risk_eval_four_weeks : risk_from_text ("4 weeks".data) = 0.6 := by
  have hfv : fracVal ['4'] [] = 4 := by
    norm_num [fracVal, show digitsVal ['4'] = 4 from by decide,
      show digitsVal ([] : List Char) = 0 from by decide]
  norm_num [risk_from_text, parse_weeks,
    show lowerTrim ("4 weeks".data) = "4 weeks".data from by decide,
    show hasStockPhrase ("4 weeks".data) = false from by decide,
    show searchWeeks ("4 weeks".data) = some (['4'], []) from by decide,
    eq_false (show ("4 weeks".data : List Char) ≠ [] from by decide), hfv]

theorem risk_eval_six_weeks : risk_from_text ("6 weeks".data) = 0.6 := by
  have hfv : fracVal ['6'] [] = 6 := by
    norm_num [fracVal, show digitsVal ['6'] = 6 from by decide,
      show digitsVal ([] : List Char) = 0 from by decide]
  norm_num [risk_from_text, parse_weeks,
    show lowerTrim ("6 weeks".data) = "6 weeks".data from by decide,
    show hasStockPhrase ("6 weeks".data) = false from by decide,
    show searchWeeks ("6 weeks".data) = some (['6'], []) from by decide,
    eq_false (show ("6 weeks".data : List Char) ≠ [] from by decide), hfv]

theorem risk_eval_seven_weeks : risk_from_text ("7 weeks".data) = 0.6625 := by
  have hfv : fracVal ['7'] [] = 7 := by
    norm_num [fracVal, show digitsVal ['7'] = 7 from by decide,
      show digitsVal ([] : List Char) = 0 from by decide]
  norm_num [risk_from_text, parse_weeks,
    show lowerTrim ("7 weeks".data) = "7 weeks".data from by decide,
    show hasStockPhrase ("7 weeks".data) = false from by decide,
    show searchWeeks ("7 weeks".data) = some (['7'], []) from by decide,
    eq_false (show ("7 weeks".data : List Char) ≠ [] from by decide), hfv,
    min_def, max_def]

theorem risk_eval_eleven_weeks : risk_from_text ("11 weeks".data) = 0.9 := by
  have hfv : fracVal ['1', '1'] [] = 11 := by
    norm_num [fracVal, show digitsVal ['1', '1'] = 11 from by decide,
      show digitsVal ([] : List Char) = 0 from by decide]
  norm_num [risk_from_text, parse_weeks,
    show lowerTrim ("11 weeks".data) = "11 weeks".data from by decide,
    show hasStockPhrase ("11 weeks".data) = false from by decide,
    show searchWeeks ("11 weeks".data) = some (['1', '1'], []) from by decide,
    eq_false (show ("11 weeks".data : List Char) ≠ [] from by decide), hfv]

theorem risk_eval_in_stock : risk_from_text ("In Stock Australia".data) = 0 := by
  norm_num [risk_from_text,
    show lowerTrim ("In Stock Australia".data) = "in stock australia".data from by decide,
    show hasStockPhrase ("in stock australia".data) = true from by decide,
    eq_false (show ("In Stock Australia".data : List Char) ≠ [] from by decide)]

theorem risk_eval_zero_weeks : risk_from_text ("0 weeks".data) = 0 := by
  have hfv : fracVal ['0'] [] = 0 := by
    norm_num [fracVal, show digitsVal ['0'] = 0 from by decide,
      show digitsVal ([] : List Char) = 0 from by decide]
  norm_num [risk_from_text, parse_weeks,
    show lowerTrim ("0 weeks".data) = "0 weeks".data from by decide,
    show hasStockPhrase ("0 weeks".data) = false from by decide,
    show searchWeeks ("0 weeks".data) = some (['0'], []) from by decide,
    eq_false (show ("0 weeks".data : List Char) ≠ [] from by decide), hfv]

theorem parse_eval_zero_weeks : parse_weeks ("0 weeks".data) = 0 := by
  have hfv : fracVal ['0'] [] = 0 := by
    norm_num [fracVal, show digitsVal ['0'] = 0 from by decide,
      show digitsVal ([] : List Char) = 0 from by decide]
  norm_num [parse_weeks,
    show lowerTrim ("0 weeks".data) = "0 weeks".data from by decide,
    show hasStockPhrase ("0 weeks".data) = false from by decide,
    show searchWeeks ("0 weeks".data) = some (['0'], []) from by decide,
    eq_false (show ("0 weeks".data : List Char) ≠ [] from by decide), hfv]

/-! ## Helper lemmas: closed forms of the assessors on non-empty input -/

theorem assess_climate_risk_eq (locations : List Location) (h : locations ≠ []) :
    assess_climate_risk locations =
      ⟨pyRound3 ((locations.map (fun loc => climateScore (locCountry loc))).sum
          / (locations.length : ℚ)),
       (locations.filter (fun loc => climateScore (locCountry loc) ≥ 0.7)).map
         (exposureEntry climateScore),
       some (if (locations.map (fun loc => climateScore (locCountry loc))).sum
                / (locations.length : ℚ) ≥ 0.6 then "high"
             else if (locations.map (fun loc => climateScore (locCountry loc))).sum
                / (locations.length : ℚ) ≥ 0.4 then "moderate"
             else "low")⟩ := by
  simp only [assess_climate_risk, h, if_false, ite_false]
  rw [exposure_foldl climateScore locations 0 []]
  simp

theorem assess_geopolitical_risk_eq (locations : List Location) (h : locations ≠ []) :
    assess_geopolitical_risk locations =
      ⟨pyRound3 ((locations.map (fun loc => geopoliticalScore (locCountry loc))).sum
          / (locations.length : ℚ)),
       (locations.filter (fun loc => geopoliticalScore (locCountry loc) ≥ 0.7)).map
         (exposureEntry geopoliticalScore),
       some (if (locations.map (fun loc => geopoliticalScore (locCountry loc))).sum
                / (locations.length : ℚ) ≥ 0.6 then "high"
             else if (locations.map (fun loc => geopoliticalScore (locCountry loc))).sum
                / (locations.length : ℚ) ≥ 0.4 then "moderate"
             else "low")⟩ := by
  simp only [assess_geopolitical_risk, h, if_false, ite_false]
  rw [exposure_foldl geopoliticalScore locations 0 []]
  simp

theorem assess_lead_time_risk_eq (products : List Product) (h : products ≠ []) :
    assess_lead_time_risk products =
      ⟨pyRound3 ((products.map (fun p => risk_from_text (productLeadText p).data)).sum
          / (products.length : ℚ)),
       products.map leadTimeEntry⟩ := by
  simp only [assess_lead_time_risk, h, if_false, ite_false]
  rw [leadtime_foldl products [] 0 0]
  have hlen : products.length ≠ 0 := fun hz => h (List.eq_nil_of_length_eq_zero hz)
  simp [hlen]

theorem assess_geographic_risk_eq (locations : List Location) (h : locations ≠ []) :
    assess_geographic_risk locations =
      ⟨locations.length, ((locations.map locCountry).dedup).length,
       pyRound3 (calculate_hhi locations none),
       (if calculate_hhi locations none ≥ 0.7 then "very_high"
        else if calculate_hhi locations none ≥ 0.5 then "high"
        else if calculate_hhi locations none ≥ 0.3 then "moderate"
        else "low"),
       countryCounts (locations.map locCountry),
       some ⟨pyRound3 (calculate_hhi locations (some "manufacturing")),
             pyRound3 (calculate_hhi locations (some "raw_material")),
             pyRound3 (calculate_hhi locations (some "supplier"))⟩,
       some ⟨⟨pyRound3 ((calculate_hhi locations (some "raw_material")
                 + calculate_hhi locations (some "manufacturing")) / 2),
              pyRound3 (adj_seg ((calculate_hhi locations (some "raw_material")
                 + calculate_hhi locations (some "manufacturing")) / 2)
                (overlapShare (segCountries locations "raw_material")
                  (segCountries locations "manufacturing"))),
              pyRound3 (overlapShare (segCountries locations "raw_material")
                (segCountries locations "manufacturing"))⟩,
             ⟨pyRound3 ((calculate_hhi locations (some "manufacturing")
                 + calculate_hhi locations (some "supplier")) / 2),
              pyRound3 (adj_seg ((calculate_hhi locations (some "manufacturing")
                 + calculate_hhi locations (some "supplier")) / 2)
                (overlapShare (segCountries locations "manufacturing")
                  (segCountries locations "supplier"))),
              pyRound3 (overlapShare (segCountries locations "manufacturing")
                (segCountries locations "supplier"))⟩⟩,
       some (((locations.map locCountry).dedup).filterMap (fun country =>
         if climateScore country ≥ 0.7 ∨ geopoliticalScore country ≥ 0.7 then
           some ⟨country, climateScore country, geopoliticalScore country⟩
         else none))⟩ := by
  simp [assess_geographic_risk, h]

theorem assess_supply_chain_risk_eq (locations : List Location) (products : List Product)
    (h : locations ≠ []) :
    assess_supply_chain_risk locations products =
      ⟨(if calculate_overall_risk_score_with_lead_time (assess_geographic_risk locations)
            (assess_lead_time_risk products) ≥ 0.8 then "very_high"
        else if calculate_overall_risk_score_with_lead_time (assess_geographic_risk locations)
            (assess_lead_time_risk products) ≥ 0.6 then "high"
        else if calculate_overall_risk_score_with_lead_time (assess_geographic_risk locations)
            (assess_lead_time_risk products) ≥ 0.4 then "moderate"
        else if calculate_overall_risk_score_with_lead_time (assess_geographic_risk locations)
            (assess_lead_time_risk products) ≥ 0.2 then "low"
        else "very_low"),
       pyRound3 (calculate_overall_risk_score_with_lead_time (assess_geographic_risk locations)
         (assess_lead_time_risk products)),
       some (assess_geographic_risk locations),
       some (assess_climate_risk locations),
       some (assess_geopolitical_risk locations),
       some (assess_lead_time_risk products),
       some ⟨(assess_geographic_risk locations).hhi,
             (assess_geographic_risk locations).concentration_risk,
             (assess_geographic_risk locations).countries,
             (assess_geographic_risk locations).country_distribution⟩,
       generate_recommendations (assess_geographic_risk locations)
         (assess_climate_risk locations) (assess_geopolitical_risk locations)⟩ := by
  simp [assess_supply_chain_risk, h]

/-! ## Helper lemmas: bounds of the lead-time classifier -/

theorem risk_from_text_mem_unit (text : List Char) :
    0 ≤ risk_from_text text ∧ risk_from_text text ≤ 1 := by
  simp only [risk_from_text]
  split_ifs with h1 h2 h3 h4 h5 h6 h7
  · norm_num
  · norm_num
  · norm_num
  · norm_num
  · norm_num
  · norm_num
  · norm_num
  · push_neg at h6
    have hmax : max (parse_weeks (lowerTrim text)) 6 = parse_weeks (lowerTrim text) :=
      max_eq_left (by linarith)
    rw [hmax]
    constructor
    · have : (0.6 : ℚ) + (parse_weeks (lowerTrim text) - 6) * (0.25 / 4) ≥ 0.6 := by
        nlinarith [h6]
      have h85 : (0 : ℚ) ≤ 0.85 := by norm_num
      exact le_min h85 (by linarith)
    · exact le_trans (min_le_left _ _) (by norm_num)

/-! ## Helper lemmas: concrete evaluations used by the witnesses -/

theorem hhi_twoCountry : calculate_hhi twoCountryLocs none = 1/2 := by
  rw [calculate_hhi_eq _ _ (by decide)]
  rw [show (filteredLocs twoCountryLocs none).map locCountry = ["Australia", "China"] from rfl]
  norm_num [hhiFormulaSpec,
    show (["Australia", "China"] : List String).dedup = ["Australia", "China"] from by decide,
    show (["Australia", "China"] : List String).count "Australia" = 1 from by decide,
    show (["Australia", "China"] : List String).count "China" = 1 from by decide]

theorem hhi_chinaHeavy : calculate_hhi chinaHeavyLocs none = 5/9 := by
  rw [calculate_hhi_eq _ _ (by decide)]
  rw [show (filteredLocs chinaHeavyLocs none).map locCountry
      = ["China", "China", "Australia"] from rfl]
  norm_num [hhiFormulaSpec,
    show (["China", "China", "Australia"] : List String).dedup
      = ["China", "Australia"] from by decide,
    show (["China", "China", "Australia"] : List String).count "China" = 2 from by decide,
    show (["China", "China", "Australia"] : List String).count "Australia" = 1 from by decide]

theorem pyRound3_half : pyRound3 (1/2) = 0.5 := by
  norm_num [pyRound3, roundHalfEven]

theorem pyRound3_fifth : pyRound3 (1/5) = 0.2 := by
  norm_num [pyRound3, roundHalfEven]

theorem pyRound3_fiveNinths : pyRound3 (5/9) = 556/1000 := by
  norm_num [pyRound3, roundHalfEven]

theorem geo_hhi_twoCountry : (assess_geographic_risk twoCountryLocs).hhi = 0.5 := by
  rw [assess_geographic_risk_eq twoCountryLocs (by decide)]
  rw [show (⟨twoCountryLocs.length, ((twoCountryLocs.map locCountry).dedup).length,
      pyRound3 (calculate_hhi twoCountryLocs none), _, _, _, _, _⟩ :
      GeographicRiskResult).hhi = pyRound3 (calculate_hhi twoCountryLocs none) from rfl]
  rw [hhi_twoCountry, pyRound3_half]

theorem lead_avg_twoWeek : (assess_lead_time_risk twoWeekProducts).average_risk = 0.2 := by
  rw [assess_lead_time_risk_eq twoWeekProducts (by decide)]
  have hmap : twoWeekProducts.map (fun p => risk_from_text (productLeadText p).data)
      = [risk_from_text ("2 weeks".data)] := rfl
  simp only [LeadTimeResult.mk.injEq]
  rw [hmap]
  simp only [List.sum_cons, List.sum_nil, add_zero]
  rw [risk_eval_two_weeks]
  norm_num [pyRound3, roundHalfEven, twoWeekProducts]

/-! ## Claim theorems -/

/-- Claim C2: for every location list and optional segment-type filter, the
concentration index equals the sum over countries of the squared share
count_in_country / total_filtered_locations, grouping by the country field;
an empty list, or a list made empty by the filter, yields 0.0 rather than an
error. -/
theorem C2_hhi_definition (locations : List Location) (location_type : Option String) :
    (filteredLocs locations location_type = [] →
      calculate_hhi locations location_type = 0)
    ∧ (filteredLocs locations location_type ≠ [] →
      calculate_hhi locations location_type
        = hhiFormulaSpec ((filteredLocs locations location_type).map locCountry)) :=
  ⟨calculate_hhi_empty locations location_type, calculate_hhi_eq locations location_type⟩

/-- Witness for C2 at two locations in two countries with no filter. -/
theorem C2_witness :
    calculate_hhi twoCountryLocs none = hhiFormulaSpec ["Australia", "China"] := by
  have h := (C2_hhi_definition twoCountryLocs none).2 (by decide)
  exact h

/-- Claim C5: the concentration index always lies in [0, 1]; on a non-empty
filtered list it is 1 exactly when all locations share one country; and when
the countries split the filtered locations evenly, it equals one over the
number of distinct countries. -/
theorem C5_hhi_bounds (locations : List Location) (location_type : Option String) :
    (0 ≤ calculate_hhi locations location_type
      ∧ calculate_hhi locations location_type ≤ 1)
    ∧ (filteredLocs locations location_type ≠ [] →
        (calculate_hhi locations location_type = 1 ↔
          ∃ c, ∀ loc ∈ filteredLocs locations location_type, locCountry loc = c))
    ∧ (∀ m : ℕ, filteredLocs locations location_type ≠ [] →
        (∀ c ∈ ((filteredLocs locations location_type).map locCountry).dedup,
          ((filteredLocs locations location_type).map locCountry).count c = m) →
        calculate_hhi locations location_type
          = 1 / ((((filteredLocs locations location_type).map locCountry).dedup.length : ℕ) : ℚ)) := by
  refine ⟨?_, ?_, ?_⟩
  · rcases eq_or_ne (filteredLocs locations location_type) [] with hf | hf
    · rw [calculate_hhi_empty _ _ hf]; norm_num
    · rw [calculate_hhi_eq _ _ hf]
      exact ⟨hhiFormulaSpec_nonneg _, hhiFormulaSpec_le_one _⟩
  · intro hf
    rw [calculate_hhi_eq _ _ hf]
    have hcs : (filteredLocs locations location_type).map locCountry ≠ [] := by
      simpa using hf
    rw [hhiFormulaSpec_eq_one_iff _ hcs]
    constructor
    · rintro ⟨c, hc⟩
      exact ⟨c, fun loc hloc => hc _ (List.mem_map_of_mem _ hloc)⟩
    · rintro ⟨c, hc⟩
      refine ⟨c, fun x hx => ?_⟩
      obtain ⟨loc, hloc, rfl⟩ := List.mem_map.mp hx
      exact hc loc hloc
  · intro m hf he
    have hcs : (filteredLocs locations location_type).map locCountry ≠ [] := by
      simpa using hf
    rw [calculate_hhi_eq _ _ hf]
    exact hhiFormulaSpec_even _ m hcs he

/-- Witness for C5: two locations in two distinct countries give index 1/2,
which is also 1/n for the even split across n = 2 countries, and is not 1
because the two locations do not share one country. -/
theorem C5_witness :
    calculate_hhi twoCountryLocs none
      = 1 / ((((filteredLocs twoCountryLocs none).map locCountry).dedup.length : ℕ) : ℚ)
    ∧ 0 ≤ calculate_hhi twoCountryLocs none
    ∧ (calculate_hhi twoCountryLocs none = 1 ↔
        ∃ c, ∀ loc ∈ filteredLocs twoCountryLocs none, locCountry loc = c) := by
  have h := C5_hhi_bounds twoCountryLocs none
  exact ⟨h.2.2 1 (by decide) (by decide), h.1.1, h.2.1 (by decide)⟩

/-- Claim C7: the concentration-level classification of the geographic
assessment is computed on the overall concentration index with the fixed
thresholds 0.7 / 0.5 / 0.3. -/
theorem C7_concentration_level (locations : List Location) :
    (assess_geographic_risk locations).concentration_risk =
      (if calculate_hhi locations none ≥ 0.7 then "very_high"
       else if calculate_hhi locations none ≥ 0.5 then "high"
       else if calculate_hhi locations none ≥ 0.3 then "moderate"
       else "low") := by
  rcases eq_or_ne locations [] with rfl | h
  · have h0 : calculate_hhi ([] : List Location) none = 0 := by
      rw [calculate_hhi]; simp
    rw [h0]
    norm_num [assess_geographic_risk]
  · rw [assess_geographic_risk_eq locations h]

/-- Claim C8: an empty location list short-circuits the full assessment to
the unknown/zero result with empty sub-assessments and the single no-data
recommendation, and an empty product list gives lead-time average 0 with no
items. -/
theorem C8_empty_inputs (products : List Product) :
    (assess_supply_chain_risk [] products).overall_risk = "unknown"
    ∧ (assess_supply_chain_risk [] products).risk_score = 0
    ∧ (assess_supply_chain_risk [] products).geographic_risk = none
    ∧ (assess_supply_chain_risk [] products).climate_risk = none
    ∧ (assess_supply_chain_risk [] products).geopolitical_risk = none
    ∧ (assess_supply_chain_risk [] products).lead_time_risk = none
    ∧ (assess_supply_chain_risk [] products).concentration_risk = none
    ∧ (assess_supply_chain_risk [] products).recommendations
        = ["No locations available for risk assessment"]
    ∧ (assess_lead_time_risk []).average_risk = 0
    ∧ (assess_lead_time_risk []).items = [] :=
  ⟨rfl, rfl, rfl, rfl, rfl, rfl, rfl, rfl, rfl, rfl⟩

/-- Claim C9: for a fixed non-negative base, the overlap adjustment is
antitone in the overlap value, and for overlaps in [0, 1] the adjusted
value stays between 0 and the base. -/
theorem C9_adjustment_monotone (base r1 r2 : ℚ)
    (hb : 0 ≤ base) (h0 : 0 ≤ r1) (h12 : r1 ≤ r2) (h1 : r2 ≤ 1) :
    adj_seg base r2 ≤ adj_seg base r1
    ∧ (0 ≤ adj_seg base r1 ∧ adj_seg base r1 ≤ base)
    ∧ (0 ≤ adj_seg base r2 ∧ adj_seg base r2 ≤ base) := by
  have key : ∀ r : ℚ, 0 ≤ r → r ≤ 1 → 0 ≤ adj_seg base r ∧ adj_seg base r ≤ base := by
    intro r hr hr1
    constructor
    · exact le_max_right _ _
    · rw [adj_seg]
      apply max_le _ hb
      nlinarith [hb, hr]
  refine ⟨?_, key r1 h0 (le_trans h12 h1), key r2 (le_trans h0 h12) h1⟩
  rw [adj_seg, adj_seg]
  exact max_le_max (mul_le_mul_of_nonneg_left (by linarith) hb) le_rfl

/-- Witness for C9 at base 1 and overlaps 0 and 1. -/
theorem C9_witness :
    adj_seg 1 1 ≤ adj_seg 1 0
    ∧ (0 ≤ adj_seg 1 0 ∧ adj_seg 1 0 ≤ 1)
    ∧ (0 ≤ adj_seg 1 1 ∧ adj_seg 1 1 ≤ 1) :=
  C9_adjustment_monotone 1 0 1 (by norm_num) (by norm_num) (by norm_num) (by norm_num)

/-- Claim C3 counterexample: the text "0 weeks" parses to a week count of 0,
which is at most 3, yet the classifier returns 0.0 rather than the 0.2 the
claim prescribes for week counts up to 3 (the code has an extra rule mapping
an extracted count of exactly 0 to 0.0). -/
theorem C3_counterexample :
    hasStockPhrase (lowerTrim ("0 weeks".data)) = false
    ∧ parse_weeks ("0 weeks".data) = 0
    ∧ ((0 : ℚ) ≤ 3)
    ∧ risk_from_text ("0 weeks".data) = 0
    ∧ risk_from_text ("0 weeks".data) ≠ 0.2 := by
  refine ⟨by decide, parse_eval_zero_weeks, by norm_num, risk_eval_zero_weeks, ?_⟩
  rw [risk_eval_zero_weeks]
  norm_num

/-- Claim C3 (amended): the classifier always returns a value in [0, 1],
determined in priority order by the in-stock phrase (0), an extracted week
count of exactly 0 (0.0), no parsable count (0.5), count at most 3 (0.2),
count at most 6 (0.6), count above 10 (0.9), and otherwise the
interpolation 0.6 + (weeks - 6) * 0.0625 capped at 0.85; the boundary
examples of the claim all evaluate as stated. -/
theorem C3_classifier (text : List Char) :
    (0 ≤ risk_from_text text ∧ risk_from_text text ≤ 1)
    ∧ risk_from_text text =
        (if text = [] then 0.5
         else if hasStockPhrase (lowerTrim text) then 0
         else if parse_weeks (lowerTrim text) = 0 then 0
         else if parse_weeks (lowerTrim text) < 0 then 0.5
         else if parse_weeks (lowerTrim text) ≤ 3 then 0.2
         else if parse_weeks (lowerTrim text) ≤ 6 then 0.6
         else if parse_weeks (lowerTrim text) > 10 then 0.9
         else min 0.85 (0.6 + (parse_weeks (lowerTrim text) - 6) * 0.0625))
    ∧ risk_from_text ("2 weeks".data) = 0.2
    ∧ risk_from_text ("3 weeks".data) = 0.2
    ∧ risk_from_text ("4 weeks".data) = 0.6
    ∧ risk_from_text ("6 weeks".data) = 0.6
    ∧ risk_from_text ("7 weeks".data) = 0.6625
    ∧ risk_from_text ("11 weeks".data) = 0.9
    ∧ risk_from_text ("In Stock Australia".data) = 0
    ∧ risk_from_text ("".data) = 0.5 := by
  refine ⟨risk_from_text_mem_unit text, ?_, risk_eval_two_weeks, risk_eval_three_weeks,
    risk_eval_four_weeks, risk_eval_six_weeks, risk_eval_seven_weeks,
    risk_eval_eleven_weeks, risk_eval_in_stock, risk_eval_empty⟩
  simp only [risk_from_text]
  by_cases h1 : text = []
  · norm_num [h1]
  by_cases h2 : hasStockPhrase (lowerTrim text)
  · norm_num [h1, h2]
  by_cases h3 : parse_weeks (lowerTrim text) = 0
  · norm_num [h1, h2, h3]
  by_cases h4 : parse_weeks (lowerTrim text) < 0
  · norm_num [h1, h2, h3, h4]
  by_cases h5 : parse_weeks (lowerTrim text) ≤ 3
  · norm_num [h1, h2, h3, h4, h5]
  by_cases h6 : parse_weeks (lowerTrim text) ≤ 6
  · norm_num [h1, h2, h3, h4, h5, h6]
  by_cases h7 : parse_weeks (lowerTrim text) > 10
  · norm_num [h1, h2, h3, h4, h5, h6, h7]
  · push_neg at h6
    have hmax : max (parse_weeks (lowerTrim text)) 6 = parse_weeks (lowerTrim text) :=
      max_eq_left (by linarith)
    simp only [if_neg h1, h2, Bool.false_eq_true, if_false, if_neg h3, if_neg h4,
      if_neg h5, if_neg (not_le.mpr h6), if_neg h7, hmax]
    norm_num

/-- Claim C6 counterexample: for locations in India, China and the USA the
mean of the climate lookups is 17/30, but the assessor exposes the rounded
value 0.567, so the returned average is not the arithmetic mean. -/
theorem C6_counterexample :
    (assess_climate_risk mixedClimateLocs).average_risk = 567/1000
    ∧ (mixedClimateLocs.map (fun loc => climateScore (locCountry loc))).sum
        / (mixedClimateLocs.length : ℚ) = 17/30
    ∧ ((567 : ℚ)/1000) ≠ 17/30 := by
  have hsum : (mixedClimateLocs.map (fun loc => climateScore (locCountry loc))).sum
      = 17/10 := by
    rw [show mixedClimateLocs.map (fun loc => climateScore (locCountry loc))
        = [climateScore "India", climateScore "China", climateScore "USA"] from rfl]
    rw [show climateScore "India" = 0.7 from rfl, show climateScore "China" = 0.6 from rfl,
        show climateScore "USA" = 0.4 from rfl]
    norm_num
  have hlen : ((mixedClimateLocs.length : ℕ) : ℚ) = 3 := by
    norm_num [mixedClimateLocs]
  refine ⟨?_, ?_, by norm_num⟩
  · rw [assess_climate_risk_eq mixedClimateLocs (by decide)]
    show pyRound3 ((mixedClimateLocs.map (fun loc => climateScore (locCountry loc))).sum
      / (mixedClimateLocs.length : ℚ)) = 567/1000
    rw [hsum, hlen]
    norm_num [pyRound3, roundHalfEven]
  · rw [hsum, hlen]
    norm_num

/-- Claim C6 (amended): each exposure assessor returns the arithmetic mean
of the per-location table lookups rounded to three decimals, flags exactly
the locations scoring at least 0.7 annotated with their score, and
classifies the unrounded mean with the 0.6 / 0.4 thresholds; an unknown
country looks up as exactly 0.5 and is never dropped from the count; empty
input returns average 0 with no flagged locations (and no level). -/
theorem C6_exposure (locations : List Location) (h : locations ≠ []) :
    ((assess_climate_risk locations).average_risk
        = pyRound3 ((locations.map (fun loc => climateScore (locCountry loc))).sum
            / (locations.length : ℚ))
      ∧ (assess_climate_risk locations).high_risk_locations
        = (locations.filter (fun loc => climateScore (locCountry loc) ≥ 0.7)).map
            (exposureEntry climateScore)
      ∧ (assess_climate_risk locations).risk_level
        = some (if (locations.map (fun loc => climateScore (locCountry loc))).sum
                    / (locations.length : ℚ) ≥ 0.6 then "high"
                else if (locations.map (fun loc => climateScore (locCountry loc))).sum
                    / (locations.length : ℚ) ≥ 0.4 then "moderate"
                else "low"))
    ∧ ((assess_geopolitical_risk locations).average_risk
        = pyRound3 ((locations.map (fun loc => geopoliticalScore (locCountry loc))).sum
            / (locations.length : ℚ))
      ∧ (assess_geopolitical_risk locations).high_risk_locations
        = (locations.filter (fun loc => geopoliticalScore (locCountry loc) ≥ 0.7)).map
            (exposureEntry geopoliticalScore)
      ∧ (assess_geopolitical_risk locations).risk_level
        = some (if (locations.map (fun loc => geopoliticalScore (locCountry loc))).sum
                    / (locations.length : ℚ) ≥ 0.6 then "high"
                else if (locations.map (fun loc => geopoliticalScore (locCountry loc))).sum
                    / (locations.length : ℚ) ≥ 0.4 then "moderate"
                else "low"))
    ∧ (∀ country, climate_risk_data.lookup country = none → climateScore country = 0.5)
    ∧ (∀ country, geopolitical_risk_data.lookup country = none →
        geopoliticalScore country = 0.5)
    ∧ (assess_climate_risk [] = ⟨0, [], none⟩
      ∧ assess_geopolitical_risk [] = ⟨0, [], none⟩) := by
  refine ⟨?_, ?_, ?_, ?_, ⟨rfl, rfl⟩⟩
  · rw [assess_climate_risk_eq locations h]
    exact ⟨rfl, rfl, rfl⟩
  · rw [assess_geopolitical_risk_eq locations h]
    exact ⟨rfl, rfl, rfl⟩
  · intro c hc
    simp [climateScore, hc]
  · intro c hc
    simp [geopoliticalScore, hc]

/-- Witness for C6 at the India / China / USA locations: the exposed climate
average is the rounded 0.567 and the level is computed as moderate. -/
theorem C6_witness :
    (assess_climate_risk mixedClimateLocs).average_risk
      = pyRound3 ((mixedClimateLocs.map (fun loc => climateScore (locCountry loc))).sum
          / (mixedClimateLocs.length : ℚ))
    ∧ (assess_climate_risk mixedClimateLocs).risk_level = some "moderate" := by
  have h := C6_exposure mixedClimateLocs (by decide)
  refine ⟨h.1.1, ?_⟩
  rw [h.1.2.2]
  rw [show mixedClimateLocs.map (fun loc => climateScore (locCountry loc))
      = [climateScore "India", climateScore "China", climateScore "USA"] from rfl]
  rw [show climateScore "India" = 0.7 from rfl, show climateScore "China" = 0.6 from rfl,
      show climateScore "USA" = 0.4 from rfl]
  norm_num [mixedClimateLocs]

/-! ## Helper lemmas: concrete overlap evaluations -/

theorem overlapShare_empty_string : overlapShare [""] [""] = 0 := by
  have hc : (([""] : List String).countP
      (fun c => ((([""] : List String).filter (fun c2 => c2 ≠ "")).contains c))) = 0 := by
    decide
  norm_num [overlapShare, hc]

theorem overlapShareSpec_empty_string : overlapShareSpec [""] [""] = 1 := by
  have hc : (([""] : List String).countP
      (fun c => (([""] : List String).contains c))) = 1 := by
    decide
  norm_num [overlapShareSpec, hc]

theorem hhi_emptyCountry_materials :
    calculate_hhi emptyCountryLocs (some "raw_material") = 1 := by
  rw [calculate_hhi_eq _ _ (by decide)]
  rw [show (filteredLocs emptyCountryLocs (some "raw_material")).map locCountry
      = [""] from rfl]
  norm_num [hhiFormulaSpec, show ([""] : List String).dedup = [""] from by decide,
    show ([""] : List String).count "" = 1 from by decide]

theorem hhi_emptyCountry_manufacturing :
    calculate_hhi emptyCountryLocs (some "manufacturing") = 1 := by
  rw [calculate_hhi_eq _ _ (by decide)]
  rw [show (filteredLocs emptyCountryLocs (some "manufacturing")).map locCountry
      = [""] from rfl]
  norm_num [hhiFormulaSpec, show ([""] : List String).dedup = [""] from by decide,
    show ([""] : List String).count "" = 1 from by decide]

/-- Claim C4 counterexample: with a raw-material and a manufacturing
location both carrying the empty string as country, both segment countries
are the empty string, so under the claim the materials-to-manufacturing
overlap is 1; the code filters empty strings out of the target set and
reports overlap 0 (hence an unreduced adjusted risk of 1 instead of 0.5). -/
theorem C4_counterexample :
    (assess_geographic_risk emptyCountryLocs).hhi_by_segment
      = some ⟨⟨1, 1, 0⟩, ⟨1/2, 1/2, 0⟩⟩
    ∧ overlapShareSpec (segCountries emptyCountryLocs "raw_material")
        (segCountries emptyCountryLocs "manufacturing") = 1
    ∧ ((0 : ℚ) ≠ 1) := by
  have hm := hhi_emptyCountry_materials
  have hf := hhi_emptyCountry_manufacturing
  have hs : calculate_hhi emptyCountryLocs (some "supplier") = 0 :=
    calculate_hhi_empty _ _ (by decide)
  have hseg1 : segCountries emptyCountryLocs "raw_material" = [""] := rfl
  have hseg2 : segCountries emptyCountryLocs "manufacturing" = [""] := rfl
  have hseg3 : segCountries emptyCountryLocs "supplier" = ([] : List String) := rfl
  have ho2 : overlapShare [""] ([] : List String) = 0 := by
    have hc : (([""] : List String).countP
        (fun c => ((([] : List String).filter (fun c2 => c2 ≠ "")).contains c))) = 0 := by
      decide
    norm_num [overlapShare, hc]
  refine ⟨?_, ?_, by norm_num⟩
  · rw [assess_geographic_risk_eq emptyCountryLocs (by decide)]
    show some (⟨⟨pyRound3 _, pyRound3 _, pyRound3 _⟩, ⟨pyRound3 _, pyRound3 _, pyRound3 _⟩⟩ :
      HhiBySegment) = _
    rw [hseg1, hseg2, hseg3, hm, hf, hs, overlapShare_empty_string, ho2]
    have e1 : pyRound3 ((1 + 1 : ℚ) / 2) = 1 := by norm_num [pyRound3, roundHalfEven]
    have e2 : adj_seg ((1 + 1 : ℚ) / 2) 0 = 1 := by norm_num [adj_seg]
    have e3 : pyRound3 (1 : ℚ) = 1 := by norm_num [pyRound3, roundHalfEven]
    have e4 : pyRound3 ((1 + 0 : ℚ) / 2) = 1/2 := by norm_num [pyRound3, roundHalfEven]
    have e5 : adj_seg ((1 + 0 : ℚ) / 2) 0 = 1/2 := by norm_num [adj_seg]
    have e6 : pyRound3 ((1 : ℚ)/2) = 1/2 := by norm_num [pyRound3, roundHalfEven]
    have e7 : pyRound3 (0 : ℚ) = 0 := by norm_num [pyRound3, roundHalfEven]
    rw [e2, e5]
    rw [e1, e3, e4, e6, e7]
  · rw [hseg1, hseg2]
    exact overlapShareSpec_empty_string

/-- Claim C4 (amended): for both segment pairs the overlap equals the
fraction of source locations whose country is a non-empty string appearing
in the target segment country list (0 for an empty source segment); the base
risk is the mean of the two segment indices; the adjusted risk is
base * (1 - 0.5 * overlap) clamped to be non-negative; the exposed segment
record carries these quantities rounded to three decimals. -/
theorem C4_segment_risk (locations : List Location) (h : locations ≠ []) :
    (∀ source target : List String,
      overlapShare source target = overlapShareAmended source target)
    ∧ (∀ base overlap : ℚ, adj_seg base overlap = max (base * (1 - 0.5 * overlap)) 0)
    ∧ (assess_geographic_risk locations).hhi_by_segment
        = some ⟨⟨pyRound3 ((calculate_hhi locations (some "raw_material")
                  + calculate_hhi locations (some "manufacturing")) / 2),
                pyRound3 (adj_seg ((calculate_hhi locations (some "raw_material")
                  + calculate_hhi locations (some "manufacturing")) / 2)
                  (overlapShare (segCountries locations "raw_material")
                    (segCountries locations "manufacturing"))),
                pyRound3 (overlapShare (segCountries locations "raw_material")
                  (segCountries locations "manufacturing"))⟩,
               ⟨pyRound3 ((calculate_hhi locations (some "manufacturing")
                  + calculate_hhi locations (some "supplier")) / 2),
                pyRound3 (adj_seg ((calculate_hhi locations (some "manufacturing")
                  + calculate_hhi locations (some "supplier")) / 2)
                  (overlapShare (segCountries locations "manufacturing")
                    (segCountries locations "supplier"))),
                pyRound3 (overlapShare (segCountries locations "manufacturing")
                  (segCountries locations "supplier"))⟩⟩ := by
  refine ⟨overlapShare_eq_amended, fun base overlap => rfl, ?_⟩
  rw [assess_geographic_risk_eq locations h]

/-- Witness for C4 at the two empty-string-country locations. -/
theorem C4_witness :
    (assess_geographic_risk emptyCountryLocs).hhi_by_segment
      = some ⟨⟨pyRound3 ((calculate_hhi emptyCountryLocs (some "raw_material")
                + calculate_hhi emptyCountryLocs (some "manufacturing")) / 2),
              pyRound3 (adj_seg ((calculate_hhi emptyCountryLocs (some "raw_material")
                + calculate_hhi emptyCountryLocs (some "manufacturing")) / 2)
                (overlapShare (segCountries emptyCountryLocs "raw_material")
                  (segCountries emptyCountryLocs "manufacturing"))),
              pyRound3 (overlapShare (segCountries emptyCountryLocs "raw_material")
                (segCountries emptyCountryLocs "manufacturing"))⟩,
             ⟨pyRound3 ((calculate_hhi emptyCountryLocs (some "manufacturing")
                + calculate_hhi emptyCountryLocs (some "supplier")) / 2),
              pyRound3 (adj_seg ((calculate_hhi emptyCountryLocs (some "manufacturing")
                + calculate_hhi emptyCountryLocs (some "supplier")) / 2)
                (overlapShare (segCountries emptyCountryLocs "manufacturing")
                  (segCountries emptyCountryLocs "supplier"))),
              pyRound3 (overlapShare (segCountries emptyCountryLocs "manufacturing")
                (segCountries emptyCountryLocs "supplier"))⟩⟩
    ∧ overlapShare (segCountries emptyCountryLocs "raw_material")
        (segCountries emptyCountryLocs "manufacturing")
      = overlapShareAmended (segCountries emptyCountryLocs "raw_material")
          (segCountries emptyCountryLocs "manufacturing") := by
  have h := C4_segment_risk emptyCountryLocs (by decide)
  exact ⟨h.2.2, h.1 _ _⟩

/-- Claim C1 counterexample: for the three China/China/Australia locations
and no products, the returned risk_score is 0.389, while the clamped
70/30 formula gives 7/18 on the unrounded concentration index and 0.3892
on the exposed (rounded) one; the returned score equals neither, because it
is rounded to three decimals before being returned. -/
theorem C1_counterexample :
    (assess_supply_chain_risk chinaHeavyLocs []).risk_score = 389/1000
    ∧ min (max (0.7 * calculate_hhi chinaHeavyLocs none
        + 0.3 * (assess_lead_time_risk []).average_risk) 0) 1 = 7/18
    ∧ min (max (0.7 * (assess_geographic_risk chinaHeavyLocs).hhi
        + 0.3 * (assess_lead_time_risk []).average_risk) 0) 1 = 3892/10000
    ∧ ((389 : ℚ)/1000 ≠ 7/18)
    ∧ ((389 : ℚ)/1000 ≠ 3892/10000) := by
  have hgeo : (assess_geographic_risk chinaHeavyLocs).hhi = 556/1000 := by
    rw [assess_geographic_risk_eq chinaHeavyLocs (by decide)]
    show pyRound3 (calculate_hhi chinaHeavyLocs none) = _
    rw [hhi_chinaHeavy, pyRound3_fiveNinths]
  have hlt : (assess_lead_time_risk []).average_risk = 0 := rfl
  refine ⟨?_, ?_, ?_, by norm_num, by norm_num⟩
  · rw [assess_supply_chain_risk_eq chinaHeavyLocs [] (by decide)]
    show pyRound3 (calculate_overall_risk_score_with_lead_time _ _) = _
    rw [calculate_overall_risk_score_with_lead_time, hgeo, hlt]
    norm_num [min_def, max_def, pyRound3, roundHalfEven]
  · rw [hhi_chinaHeavy, hlt]
    norm_num [min_def, max_def]
  · rw [hgeo, hlt]
    norm_num [min_def, max_def]

/-- Claim C1 (amended): for every non-empty location list and every product
list, the returned risk_score equals the three-decimal rounding of the
clamped score 0.7 * hhi + 0.3 * lead-time average (computed from the
exposed, already-rounded fields), the risk level is bucketed on the
pre-rounding clamped score with the 0.8 / 0.6 / 0.4 / 0.2 thresholds, and
in particular exposed hhi 0.5 with lead-time average 0.2 gives score 0.41
and level moderate. -/
theorem C1_composite_score (locations : List Location) (products : List Product)
    (h : locations ≠ []) :
    ((assess_supply_chain_risk locations products).risk_score
      = pyRound3 (min (max (0.7 * (assess_geographic_risk locations).hhi
          + 0.3 * (assess_lead_time_risk products).average_risk) 0) 1))
    ∧ ((assess_supply_chain_risk locations products).overall_risk
      = (if min (max (0.7 * (assess_geographic_risk locations).hhi
            + 0.3 * (assess_lead_time_risk products).average_risk) 0) 1 ≥ 0.8
         then "very_high"
         else if min (max (0.7 * (assess_geographic_risk locations).hhi
            + 0.3 * (assess_lead_time_risk products).average_risk) 0) 1 ≥ 0.6
         then "high"
         else if min (max (0.7 * (assess_geographic_risk locations).hhi
            + 0.3 * (assess_lead_time_risk products).average_risk) 0) 1 ≥ 0.4
         then "moderate"
         else if min (max (0.7 * (assess_geographic_risk locations).hhi
            + 0.3 * (assess_lead_time_risk products).average_risk) 0) 1 ≥ 0.2
         then "low"
         else "very_low"))
    ∧ ((assess_geographic_risk locations).hhi = 0.5 →
        (assess_lead_time_risk products).average_risk = 0.2 →
        (assess_supply_chain_risk locations products).risk_score = 0.41
        ∧ (assess_supply_chain_risk locations products).overall_risk = "moderate") := by
  have hrs : (assess_supply_chain_risk locations products).risk_score
      = pyRound3 (calculate_overall_risk_score_with_lead_time
          (assess_geographic_risk locations) (assess_lead_time_risk products)) := by
    rw [assess_supply_chain_risk_eq locations products h]
  have hor : (assess_supply_chain_risk locations products).overall_risk
      = (if calculate_overall_risk_score_with_lead_time (assess_geographic_risk locations)
            (assess_lead_time_risk products) ≥ 0.8 then "very_high"
         else if calculate_overall_risk_score_with_lead_time (assess_geographic_risk locations)
            (assess_lead_time_risk products) ≥ 0.6 then "high"
         else if calculate_overall_risk_score_with_lead_time (assess_geographic_risk locations)
            (assess_lead_time_risk products) ≥ 0.4 then "moderate"
         else if calculate_overall_risk_score_with_lead_time (assess_geographic_risk locations)
            (assess_lead_time_risk products) ≥ 0.2 then "low"
         else "very_low") := by
    rw [assess_supply_chain_risk_eq locations products h]
  refine ⟨hrs, hor, ?_⟩
  intro hh hl
  have hs : calculate_overall_risk_score_with_lead_time (assess_geographic_risk locations)
      (assess_lead_time_risk products) = 0.41 := by
    rw [calculate_overall_risk_score_with_lead_time, hh, hl]
    norm_num [min_def, max_def]
  constructor
  · rw [hrs, hs]
    norm_num [pyRound3, roundHalfEven]
  · rw [hor, hs]
    norm_num

/-- Witness for C1 at two equal-share countries and one two-week product. -/
theorem C1_witness :
    (assess_supply_chain_risk twoCountryLocs twoWeekProducts).risk_score = 0.41
    ∧ (assess_supply_chain_risk twoCountryLocs twoWeekProducts).overall_risk
        = "moderate" :=
  (C1_composite_score twoCountryLocs twoWeekProducts (by decide)).2.2
    geo_hhi_twoCountry lead_avg_twoWeek

/-- Claim C10: every numeric field exposed by the records is the
three-decimal rounding of the underlying quantity (overall and per-type
concentration indices, segment bases, adjusted values and overlaps, the two
exposure averages, the per-product lead-time risks and their average), and
the composite risk_score is the rounding of the clamped 70/30 formula
applied to the already-rounded hhi and lead-time average fields. -/
theorem C10_rounding (locations : List Location) (products : List Product)
    (h : locations ≠ []) :
    (assess_geographic_risk locations).hhi = pyRound3 (calculate_hhi locations none)
    ∧ (assess_geographic_risk locations).hhi_by_type
        = some ⟨pyRound3 (calculate_hhi locations (some "manufacturing")),
                pyRound3 (calculate_hhi locations (some "raw_material")),
                pyRound3 (calculate_hhi locations (some "supplier"))⟩
    ∧ (assess_geographic_risk locations).hhi_by_segment
        = some ⟨⟨pyRound3 ((calculate_hhi locations (some "raw_material")
                  + calculate_hhi locations (some "manufacturing")) / 2),
                pyRound3 (adj_seg ((calculate_hhi locations (some "raw_material")
                  + calculate_hhi locations (some "manufacturing")) / 2)
                  (overlapShare (segCountries locations "raw_material")
                    (segCountries locations "manufacturing"))),
                pyRound3 (overlapShare (segCountries locations "raw_material")
                  (segCountries locations "manufacturing"))⟩,
               ⟨pyRound3 ((calculate_hhi locations (some "manufacturing")
                  + calculate_hhi locations (some "supplier")) / 2),
                pyRound3 (adj_seg ((calculate_hhi locations (some "manufacturing")
                  + calculate_hhi locations (some "supplier")) / 2)
                  (overlapShare (segCountries locations "manufacturing")
                    (segCountries locations "supplier"))),
                pyRound3 (overlapShare (segCountries locations "manufacturing")
                  (segCountries locations "supplier"))⟩⟩
    ∧ (assess_climate_risk locations).average_risk
        = pyRound3 ((locations.map (fun loc => climateScore (locCountry loc))).sum
            / (locations.length : ℚ))
    ∧ (assess_geopolitical_risk locations).average_risk
        = pyRound3 ((locations.map (fun loc => geopoliticalScore (locCountry loc))).sum
            / (locations.length : ℚ))
    ∧ (assess_lead_time_risk products).items
        = products.map (fun p => ⟨p.name?.getD "Unknown", productLeadText p,
            pyRound3 (risk_from_text (productLeadText p).data)⟩)
    ∧ (products ≠ [] → (assess_lead_time_risk products).average_risk
        = pyRound3 ((products.map (fun p => risk_from_text (productLeadText p).data)).sum
            / (products.length : ℚ)))
    ∧ (assess_supply_chain_risk locations products).risk_score
        = pyRound3 (min (max (0.7 * (assess_geographic_risk locations).hhi
            + 0.3 * (assess_lead_time_risk products).average_risk) 0) 1) := by
  refine ⟨?_, ?_, ?_, ?_, ?_, ?_, ?_, ?_⟩
  · rw [assess_geographic_risk_eq locations h]
  · rw [assess_geographic_risk_eq locations h]
  · rw [assess_geographic_risk_eq locations h]
  · rw [assess_climate_risk_eq locations h]
  · rw [assess_geopolitical_risk_eq locations h]
  · rcases eq_or_ne products [] with rfl | hp
    · rfl
    · rw [assess_lead_time_risk_eq products hp]
      rfl
  · intro hp
    rw [assess_lead_time_risk_eq products hp]
  · rw [assess_supply_chain_risk_eq locations products h]
    rfl

/-- Witness for C10 at the two-country locations and the two-week product. -/
theorem C10_witness :
    (assess_geographic_risk twoCountryLocs).hhi
      = pyRound3 (calculate_hhi twoCountryLocs none)
    ∧ (assess_lead_time_risk twoWeekProducts).average_risk
      = pyRound3 ((twoWeekProducts.map
          (fun p => risk_from_text (productLeadText p).data)).sum
          / (twoWeekProducts.length : ℚ))
    ∧ (assess_supply_chain_risk twoCountryLocs twoWeekProducts).risk_score
      = pyRound3 (min (max (0.7 * (assess_geographic_risk twoCountryLocs).hhi
          + 0.3 * (assess_lead_time_risk twoWeekProducts).average_risk) 0) 1) := by
  have h := C10_rounding twoCountryLocs twoWeekProducts (by decide)
  exact ⟨h.1, h.2.2.2.2.2.2.1 (by decide), h.2.2.2.2.2.2.2⟩
